import Mathlib

/-!
Shallow embedding of the DataStudio core subsystems that the specification
talks about: the file-I/O strategy dispatch of `datastudio/core/file.py`
(with the registry variant of `datastudio/base/file.py`) and the metadata
composite of `datastudio/core/metadata.py`.

Python machine-level behaviour is modelled explicitly where the code depends
on it: attribute lookup against the attribute names a class actually defines
(a failed lookup is an `AttributeError`), `len()` against the presence of a
`__len__` method, dict insertion order as association lists, and uncaught
exceptions as `Except.error`.
-/

/-- Python exceptions that the modelled code can raise.  `unsupportedFormat`
stands for the bare `Exception("... files are not supported.")` raised by
`_get_file_handler`; the spec's taxonomy names it `UnsupportedFormat`. -/
inductive PyErr
  | stopIteration
  | typeError
  | attributeError
  | keyError
  | valueError
  | fileNotFoundError
  | fileExistsError
  | unsupportedFormat
  | emptyDataError
deriving DecidableEq, Repr

instance {ε α : Type} [DecidableEq ε] [DecidableEq α] : DecidableEq (Except ε α) := fun a b => by
  cases a <;> cases b
  case error.error e f =>
    exact if h : e = f then isTrue (by rw [h]) else isFalse (by simp [h])
  case error.ok e x => exact isFalse (by simp)
  case ok.error x e => exact isFalse (by simp)
  case ok.ok x y =>
    exact if h : x = y then isTrue (by rw [h]) else isFalse (by simp [h])

/-- Executable `str.lower()` over the character list (ASCII, which covers
every key this code lower-cases); `String.toLower` itself does not reduce
inside the kernel. -/
def strToLower (s : String) : String :=
  String.mk (s.data.map Char.toLower)

/-- First-match association-list lookup: Python `dict.get` / `dict[...]`
over insertion-ordered entries. -/
def lookupExt {α : Type} : List (String × α) → String → Option α
  | [], _ => none
  | (k, v) :: t, q => if k = q then some v else lookupExt t q

/-- Python `d[k] = v`: overwrite in place when the key exists (keeping its
position, as Python dicts do), append otherwise. -/
def dictSet {α : Type} : List (String × α) → String → α → List (String × α)
  | [], k, v => [(k, v)]
  | (k', v') :: t, k, v => if k' = k then (k, v) :: t else (k', v') :: dictSet t k v

/-- Index of the last occurrence of `c` in `cs` (Python `str.rfind`, found case). -/
def lastIndexOfChar : List Char → Char → Option Nat
  | [], _ => none
  | x :: xs, c =>
    match lastIndexOfChar xs c with
    | some j => some (j + 1)
    | none => if x = c then some (0 : Nat) else none

/-- Python `str.rfind`: index of the last occurrence, `-1` when absent. -/
def rfindI (cs : List Char) (c : Char) : Int :=
  match lastIndexOfChar cs c with
  | some j => (j : Int)
  | none => (-1 : Int)

/-- `os.path.splitext(p)[1]` (posixpath): the suffix of `p` starting at the
last dot, provided that dot lies after the last path separator and the
basename does not consist solely of dots up to it; `""` otherwise.  Mirrors
`posixpath._splitext`. -/
def splitextExt (p : String) : String :=
  let cs := p.data
  let sepIndex := rfindI cs ('/')
  let dotIndex := rfindI cs ('.')
  if sepIndex < dotIndex then
    let filenameIndex := (sepIndex + 1).toNat
    if ((cs.drop filenameIndex).take (dotIndex.toNat - filenameIndex)).any
        (fun ch => ch != ('.')) then
      String.mk (cs.drop dotIndex.toNat)
    else ""
  else ""

/-- `os.path.dirname(p)` (posixpath): everything up to the last separator,
with trailing separators stripped unless the head is entirely separators. -/
def dirname (p : String) : String :=
  let cs := p.data
  let i := (rfindI cs ('/') + 1).toNat
  let head := cs.take i
  if head = [] then ""
  else if head.all (fun ch => ch == ('/')) then String.mk head
  else String.mk ((head.reverse.dropWhile (fun ch => ch == ('/'))).reverse)

/-- Split a character list at every occurrence of `c`; the result always has
one more piece than there are occurrences of `c` (Python `str.split(c)`). -/
def splitOnChar (c : Char) : List Char → List (List Char)
  | [] => [[]]
  | x :: xs =>
    match splitOnChar c xs with
    | [] => [[]]
    | h :: t => if x = c then [] :: h :: t else (x :: h) :: t

/-- Join pieces with the separator `c` between consecutive pieces
(Python `c.join(pieces)`). -/
def joinChar (c : Char) : List (List Char) → List Char
  | [] => []
  | [l] => l
  | l :: l' :: ls => l ++ c :: joinChar c (l' :: ls)

/-- Case-insensitive Python `needle in hay` on strings, as used by
`Metadata.get` (`metadata_type.lower() in k.lower()`). -/
def isSubstring (needle : List Char) : List Char → Bool
  | [] => needle.isEmpty
  | x :: t => needle.isPrefixOf (x :: t) || isSubstring needle t

/-- Python `a.lower() in b.lower()`. -/
def strIn (needle hay : String) : Bool :=
  isSubstring (strToLower needle).data (strToLower hay).data

/-!
Metadata model (`datastudio/core/metadata.py`).

Records are the `AbstractMetadata` subclasses.  A record's `_metadata` dict is
an insertion-ordered association list from string keys to `MVal` values.  The
ambient data that the constructors sample from the host (`os.getlogin()`,
`time.strftime`, `uuid.uuid4()`) is threaded through an `Env`.
-/

/-- Values stored in a record's `_metadata` dict: strings, counters and the
process log (a list of strings). -/
inductive MVal
  | s (v : String)
  | n (v : Nat)
  | strs (v : List String)
deriving DecidableEq, Repr

/-- The four record categories of the taxonomy (`MetadataAdmin`,
`MetadataDesc`, `MetadataTech`, `MetadataProcess`). -/
inductive MetaCategory
  | admin
  | desc
  | tech
  | process
deriving DecidableEq, Repr

/-- The `metadata_type` attribute each subclass constructor assigns. -/
def metadataTypeString : MetaCategory → String
  | MetaCategory.admin => "Administrative"
  | MetaCategory.desc => "Descriptive"
  | MetaCategory.tech => "Technical"
  | MetaCategory.process => "Process"

/-- One metadata record: its category (fixing which subclass's methods apply),
the class name of the owning entity (`self._entity.__class__.__name__`), and
the `_metadata` dict. -/
structure MetaRec where
  category : MetaCategory
  entityClass : String
  metadata : List (String × MVal)
deriving DecidableEq, Repr

/-- Host-environment samples used by the constructors and updates. -/
structure Env where
  user : String
  dateString : String
  dateFormatted : String
  uuid : String
deriving DecidableEq, Repr

/-- Instance attribute names every record carries: `AbstractMetadata.__init__`
(lines 348-352) assigns `_entity` and `_metadata`; each subclass constructor
assigns `metadata_type`.  No constructor in the hierarchy assigns `_name`. -/
def metaRecInstanceAttrNames : List String := ["_entity", "_metadata", "metadata_type"]

/-- Method names defined by `AbstractMetadata` (lines 345-391) plus each
subclass's own defs.  None of them defines `__len__`. -/
def metaRecClassAttrNames : MetaCategory → List String
  | MetaCategory.admin =>
      ["__init__", "update", "get", "add", "change", "remove", "print"]
  | MetaCategory.desc =>
      ["__init__", "update", "get", "add", "change", "remove", "print"]
  | MetaCategory.tech =>
      ["__init__", "update", "get", "add", "change", "remove", "print",
       "update_metadata", "_format_metadata"]
  | MetaCategory.process =>
      ["__init__", "update", "get", "add", "change", "remove", "print"]

/-- Python `len(record)`: succeeds only through a `__len__` method, which no
class of the metadata hierarchy defines, so the call raises `TypeError`.
(The `.ok` branch is unreachable; its value is a placeholder.) -/
def pyLenMetaRec (r : MetaRec) : Except PyErr Nat :=
  if ("__len__") ∈ metaRecClassAttrNames r.category then Except.ok r.metadata.length
  else Except.error PyErr.typeError

/-- The dict assigned by `AbstractMetadata.__init__` (lines 348-352). -/
def abstractMetadataInitDict (name : String) : List (String × MVal) :=
  [("name", MVal.s name), ("updates", MVal.n 0)]

/-- `AbstractMetadata.update` (lines 354-356): `self._metadata['updates'] += 1`.
Python `+=` on a dict entry raises `KeyError` if the key is absent and
`TypeError` if the stored value is not a number. -/
def abstractMetadataUpdate (r : MetaRec) : Except PyErr MetaRec :=
  match lookupExt r.metadata ("updates") with
  | some (MVal.n k) =>
      Except.ok { r with metadata := dictSet r.metadata ("updates") (MVal.n (k + 1)) }
  | some _ => Except.error PyErr.typeError
  | none => Except.error PyErr.keyError

/-- Positional parameters `AbstractMetadata.__init__(self, entity, name,
**kwargs)` (line 348) accepts after `self`: `entity` and `name`; `kwargs` is
a keyword star-arg, not a positional slot. -/
def abstractMetadataInitPositionalParams : Nat := 2

/-- `MetadataAdmin.__init__` (lines 399-420): line 400 calls
`super(MetadataAdmin, self).__init__(entity, name, kwargs)` — three
positional arguments into `AbstractMetadata.__init__`, which accepts two —
so every construction raises `TypeError` before any field is assigned.
(The `.ok` branch models the fields lines 401-420 would assign, in dict
insertion order, and is unreachable.) -/
def metadataAdminInit (env : Env) (entityClass name : String) : Except PyErr MetaRec :=
  let md :=
    dictSet (dictSet (dictSet (dictSet (dictSet (dictSet (dictSet (dictSet
      (abstractMetadataInitDict name)
      ("id") (MVal.s env.uuid))
      ("name") (MVal.s name))
      ("creator") (MVal.s env.user))
      ("created") (MVal.s env.dateFormatted))
      ("modifier") (MVal.s env.user))
      ("modified") (MVal.s env.dateFormatted))
      ("classname") (MVal.s entityClass))
      ("objectname")
      (MVal.s (env.user ++ "_" ++ env.dateString ++ "_" ++ "_" ++ entityClass ++ "_" ++ name))
  if 3 ≤ abstractMetadataInitPositionalParams then
    Except.ok { category := MetaCategory.admin, entityClass := entityClass, metadata := md }
  else Except.error PyErr.typeError

/-- `MetadataAdmin.update` (lines 422-426): the base update, then refresh
`modifier` and `modified`.  The `id` entry is not touched. -/
def metadataAdminUpdate (env : Env) (r : MetaRec) : Except PyErr MetaRec :=
  match abstractMetadataUpdate r with
  | Except.error e => Except.error e
  | Except.ok r1 =>
      let md := dictSet (dictSet r1.metadata ("modifier") (MVal.s env.user))
        ("modified") (MVal.s env.dateFormatted)
      Except.ok { r1 with metadata := md }

/-- `MetadataDesc.__init__` (lines 470-476): line 471 likewise calls
`super(MetadataDesc, self).__init__(entity, name, kwargs)` with three
positional arguments into the two-slot `AbstractMetadata.__init__`, so every
construction raises `TypeError`.  (The `.ok` branch models the fields lines
472-476 would assign and is unreachable.) -/
def metadataDescInit (entityClass name : String) : Except PyErr MetaRec :=
  let md :=
    dictSet (dictSet (dictSet (abstractMetadataInitDict name)
      ("description") (MVal.s ("")))
      ("class") (MVal.s entityClass))
      ("version") (MVal.s ("0.1.0"))
  if 3 ≤ abstractMetadataInitPositionalParams then
    Except.ok { category := MetaCategory.desc, entityClass := entityClass, metadata := md }
  else Except.error PyErr.typeError

/-- Field names of `platform.uname()` (a `uname_result`): there is no field
named `tech`. -/
def unameFields : List String :=
  ["system", "node", "release", "version", "machine", "processor"]

/-- `MetadataTech.__init__` (lines 518-522) calls `_format_metadata`
(lines 529-547), whose first statement reads `uname.tech`; `uname_result`
has no such field, so construction raises `AttributeError`.  (The `.ok`
branch is unreachable; its value is a placeholder.) -/
def metadataTechInit (entityClass name : String) : Except PyErr MetaRec :=
  if ("tech") ∈ unameFields then
    Except.ok { category := MetaCategory.tech, entityClass := entityClass,
                metadata := abstractMetadataInitDict name }
  else Except.error PyErr.attributeError

/-- `MetadataProcess.__init__` (lines 582-593): base dict plus the `log` list
seeded with the instantiation message. -/
def metadataProcessInit (env : Env) (entityClass name : String) : MetaRec :=
  { category := MetaCategory.process, entityClass := entityClass,
    metadata :=
      dictSet (abstractMetadataInitDict name) ("log")
        (MVal.strs [entityClass ++ " object named \x27" ++ name ++
          "\x27 was instantiated " ++ " at " ++ env.dateFormatted ++ " by " ++ env.user ++ "."]) }

/-- Append a line to a record's `log` list. -/
def appendLog (md : List (String × MVal)) (msg : String) : List (String × MVal) :=
  match lookupExt md ("log") with
  | some (MVal.strs l) => dictSet md ("log") (MVal.strs (l ++ [msg]))
  | _ => md

/-- `MetadataProcess.update` (lines 595-603).  The statement
`msg = 'Class : ' + classname + 'Name : ' + self._name + 'Date : ' + ... + 'Event : ' + event`
evaluates its operands left to right, so the attribute lookup `self._name`
runs before `event` is ever concatenated and before the `if event:` guard.
No constructor assigns `_name` (see `metaRecInstanceAttrNames`), so the
lookup raises `AttributeError`.  The inner branches are unreachable: were
`_name` present, `event = None` would raise `TypeError` at `+ event`, and a
string event would append `msg` to the log (the method never increments
`updates` — it does not call the base `update`). -/
def metadataProcessUpdate (env : Env) (r : MetaRec) (event : Option String) : Except PyErr MetaRec :=
  if ("_name") ∈ metaRecInstanceAttrNames ∨ ("_name") ∈ metaRecClassAttrNames MetaCategory.process then
    match event with
    | none => Except.error PyErr.typeError
    | some e =>
        let md := appendLog r.metadata
          ("Class : " ++ r.entityClass ++ "Name : " ++ "Date : " ++ env.dateFormatted ++
            "Event : " ++ e)
        Except.ok { r with metadata := md }
  else Except.error PyErr.attributeError

/-- Method resolution for `record.update(...)`: `MetadataAdmin` and
`MetadataProcess` override `update`; `MetadataDesc` inherits it; MetadataTech
defines `update_metadata` but not `update`, so it also inherits the base one. -/
def metaRecUpdate (env : Env) (r : MetaRec) (event : Option String) : Except PyErr MetaRec :=
  match r.category with
  | MetaCategory.admin => metadataAdminUpdate env r
  | MetaCategory.desc => abstractMetadataUpdate r
  | MetaCategory.tech => abstractMetadataUpdate r
  | MetaCategory.process => metadataProcessUpdate env r event

/-- `AbstractMetadata.add` (lines 368-373): insert-once; a duplicate key
raises `ValueError` before any mutation. -/
def metaRecAdd (r : MetaRec) (key : String) (value : MVal) : Except PyErr MetaRec :=
  match lookupExt r.metadata key with
  | none => Except.ok { r with metadata := dictSet r.metadata key value }
  | some _ => Except.error PyErr.valueError

/-- The `Metadata` composite (lines 58-100): a dict from lower-cased
`metadata_type` strings to records. -/
structure Metadata where
  store : List (String × MetaRec)
deriving DecidableEq, Repr

/-- `Metadata.add` (lines 64-71): keyed by `metadata.metadata_type.lower()`. -/
def Metadata.add (m : Metadata) (r : MetaRec) : Metadata :=
  { store := dictSet m.store (strToLower (metadataTypeString r.category)) r }

/-- `Metadata.get` (lines 73-92).  `next(v for (k, v) in ... if
metadata_type.lower() in k.lower())` raises `StopIteration` when nothing
matches and otherwise yields the first matching record, after which
`len(metadata) == 0` is evaluated — raising `TypeError`, because no record
class defines `__len__` (see `pyLenMetaRec`). -/
def Metadata.get (m : Metadata) (metadata_type : String) : Except PyErr MetaRec :=
  match (m.store.filter (fun kv => strIn metadata_type kv.1)).head? with
  | none => Except.error PyErr.stopIteration
  | some kv =>
      match pyLenMetaRec kv.2 with
      | Except.error e => Except.error e
      | Except.ok len0 =>
          if len0 = 0 then Except.error PyErr.keyError else Except.ok kv.2

/-!
File-I/O model (`datastudio/core/file.py`, registry variant of
`datastudio/base/file.py`).

The filesystem is a store of text files plus a set of directories; reading a
missing path is the `IOError` branch, and uncaught exceptions are
`Except.error`.  DataFrames are header plus string rows; `to_csv(...,
index=False)` and `pd.read_csv` are modelled as CSV serialisation over that
representation (no quoting: the round-trip theorems assume separator-free
cells, and pandas's duplicate-column mangling is reflected as a `Nodup`
hypothesis rather than modelled).
-/

/-- A pandas DataFrame, at the granularity the dispatch code observes:
column names and rows of (string-rendered) cells. -/
structure DataFrame where
  cols : List String
  rows : List (List String)
deriving DecidableEq, Repr

/-- The filesystem: file contents keyed by path, plus existing directories. -/
structure FS where
  files : List (String × String)
  dirs : List String
deriving DecidableEq, Repr

/-- `os.path.exists`: the empty path never exists. -/
def pathExists (fs : FS) (p : String) : Bool :=
  (p != "") && (fs.files.any (fun kv => kv.1 == p) || fs.dirs.contains p)

/-- `os.mkdir`: fails with `FileExistsError` on an existing path, with
`FileNotFoundError` on the empty path or when the parent directory is
missing; otherwise records the new directory. -/
def osMkdir (fs : FS) (d : String) : Except PyErr FS :=
  if pathExists fs d then Except.error PyErr.fileExistsError
  else if d = "" then Except.error PyErr.fileNotFoundError
  else if dirname d ≠ "" ∧ pathExists fs (dirname d) = false then
    Except.error PyErr.fileNotFoundError
  else Except.ok { fs with dirs := fs.dirs ++ [d] }

/-- `FileIOStrategy._check_dir` (core lines 242-249; identical
`FileIO._check_dir` in base lines 349-356): create the file's directory when
it does not exist.  Runs outside every strategy's `try` block, so any
`OSError` it raises propagates to the caller. -/
def checkDir (fs : FS) (path : String) : Except PyErr FS :=
  if pathExists fs (dirname path) then Except.ok fs
  else osMkdir fs (dirname path)

/-- `FileIOStrategy._check_file_ext` (core lines 251-260): append the
canonical extension when the path's suffix differs. -/
def checkFileExt (path ext : String) : String :=
  if splitextExt path ≠ ext then path ++ ext else path

/-- Store (or overwrite) a file's text. -/
def fsWriteFile (fs : FS) (p text : String) : FS :=
  { fs with files := (p, text) :: fs.files }

/-- Read a file's text, `none` when the path names no file. -/
def fsReadFile (fs : FS) (p : String) : Option String :=
  lookupExt fs.files p

/-- One CSV line: cells joined by commas. -/
def lineOfCells (cells : List String) : List Char :=
  joinChar (',') (cells.map String.data)

/-- `DataFrame.to_csv(path, index=False)`: header line then one line per row,
each line terminated by a newline. -/
def dfToCsv (df : DataFrame) : String :=
  String.mk (joinChar ('\n') (lineOfCells df.cols :: df.rows.map lineOfCells) ++ [('\n')])

/-- `pd.read_csv` on raw text: blank lines are skipped (pandas default
`skip_blank_lines`); no lines at all is `EmptyDataError`; the first
remaining line is the header; `usecols` members absent from the header raise
`ValueError`, otherwise the frame is projected to the requested columns. -/
def pdReadCsv (text : String) (usecols : Option (List String)) : Except PyErr DataFrame :=
  let rawLines := splitOnChar ('\n') text.data
  let lines := rawLines.filter (fun l => !l.isEmpty)
  match lines with
  | [] => Except.error PyErr.emptyDataError
  | h :: rest =>
    let cols := (splitOnChar (',') h).map String.mk
    let rows := rest.map (fun l => (splitOnChar (',') l).map String.mk)
    match usecols with
    | none => Except.ok { cols := cols, rows := rows }
    | some sel =>
        if sel.all (fun s => cols.contains s) then
          Except.ok { cols := cols.filter (fun c => sel.contains c),
                      rows := rows.map (fun r =>
                        ((cols.zip r).filter (fun p => sel.contains p.1)).map (fun p => p.2)) }
        else Except.error PyErr.valueError

/-- `pd.read_csv(..., compression='gzip', error_bad_lines=False, ...)` as
used by the `.gz` strategy: like `pdReadCsv`, but rows with more fields than
the header are skipped instead of aborting the read. -/
def pdReadCsvGz (text : String) (usecols : Option (List String)) : Except PyErr DataFrame :=
  match pdReadCsv text usecols with
  | Except.error e => Except.error e
  | Except.ok df =>
      Except.ok { df with rows := df.rows.filter (fun r => r.length ≤ df.cols.length) }

/-- Diagnostic printed by every strategy's `IOError` branch. -/
def fileMissingMsg (path : String) : String :=
  "The file, " ++ path ++ ", does not exist. None returned."

/-- Rendering of a caught exception for the `print(e)` branch. -/
def pyErrMsg : PyErr → String
  | PyErr.stopIteration => "StopIteration"
  | PyErr.typeError => "TypeError"
  | PyErr.attributeError => "AttributeError"
  | PyErr.keyError => "KeyError"
  | PyErr.valueError => "ValueError"
  | PyErr.fileNotFoundError => "FileNotFoundError"
  | PyErr.fileExistsError => "FileExistsError"
  | PyErr.unsupportedFormat => "UnsupportedFormat"
  | PyErr.emptyDataError => "EmptyDataError"

/-- `FileIOCSV.read` (core lines 331-355): every failure is caught — a
missing file prints the diagnostic and returns `None`, any other exception
is printed and `None` is returned. -/
def fileIOCSVRead (fs : FS) (path : String) (filter : Option (List String)) :
    Option DataFrame × List String :=
  match fsReadFile fs path with
  | none => (none, [fileMissingMsg path])
  | some text =>
      match pdReadCsv text filter with
      | Except.error e => (none, [pyErrMsg e])
      | Except.ok df => (some df, [])

/-- `FileIOCSVgz.read` (core lines 269-295): same policy via the gzip reader. -/
def fileIOCSVgzRead (fs : FS) (path : String) (filter : Option (List String)) :
    Option DataFrame × List String :=
  match fsReadFile fs path with
  | none => (none, [fileMissingMsg path])
  | some text =>
      match pdReadCsvGz text filter with
      | Except.error e => (none, [pyErrMsg e])
      | Except.ok df => (some df, [])

/-- `FileIOCSV.write` (core lines 357-382): `_check_dir` (outside the `try`),
`_check_file_ext('.csv')`, then `to_csv(path, index=False)` inside the `try`
(serialisation always succeeds in this model). -/
def fileIOCSVWrite (fs : FS) (path : String) (content : DataFrame) :
    Except PyErr (Option String) × FS :=
  match checkDir fs path with
  | Except.error e => (Except.error e, fs)
  | Except.ok fs1 =>
      let path1 := checkFileExt path (".csv")
      (Except.ok (some path1), fsWriteFile fs1 path1 (dfToCsv content))

/-- `FileIOCSVgz.write` (core lines 297-323): as CSV with the `.gz` canonical
extension; the gzip compression is transparent in this model. -/
def fileIOCSVgzWrite (fs : FS) (path : String) (content : DataFrame) :
    Except PyErr (Option String) × FS :=
  match checkDir fs path with
  | Except.error e => (Except.error e, fs)
  | Except.ok fs1 =>
      let path1 := checkFileExt path (".gz")
      (Except.ok (some path1), fsWriteFile fs1 path1 (dfToCsv content))

/-- Content accepted by the TXT strategy: a single string, or a list of
strings written by `writelines` (concatenated with no separator). -/
inductive TxtContent
  | str (s : String)
  | strs (ls : List String)
deriving DecidableEq, Repr

/-- The text actually written for a `TxtContent`. -/
def txtContentText : TxtContent → String
  | TxtContent.str s => s
  | TxtContent.strs ls => String.join ls

/-- `FileIOTXT.write` (core lines 418-454): `_check_dir` outside the `try`,
`_check_file_ext('.txt')`, then the write inside the `try`. -/
def fileIOTXTWrite (fs : FS) (path : String) (content : TxtContent) :
    Except PyErr (Option String) × FS :=
  match checkDir fs path with
  | Except.error e => (Except.error e, fs)
  | Except.ok fs1 =>
      let path1 := checkFileExt path (".txt")
      (Except.ok (some path1), fsWriteFile fs1 path1 (txtContentText content))

/-- The two strategies registered by the core draft's `FileIO` context. -/
inductive Handler
  | csvgz
  | csv
deriving DecidableEq, Repr

/-- `FileIO._FILE_HANDLERS` (core line 462). -/
def coreFileHandlers : List (String × Handler) :=
  [(".gz", Handler.csvgz), (".csv", Handler.csv)]

/-- `FileIO._get_file_handler` (core lines 467-473): exact (case-sensitive)
lookup of `os.path.splitext(path)[1]`; no handler means an immediate raise. -/
def getFileHandlerCore (path : String) : Except PyErr Handler :=
  match lookupExt coreFileHandlers (splitextExt path) with
  | none => Except.error PyErr.unsupportedFormat
  | some h => Except.ok h

/-- `FileIO.read` (core lines 475-478): resolve the handler, then delegate. -/
def fileIORead (fs : FS) (path : String) (filter : Option (List String)) :
    Except PyErr (Option DataFrame × List String) :=
  match getFileHandlerCore path with
  | Except.error e => Except.error e
  | Except.ok Handler.csv => Except.ok (fileIOCSVRead fs path filter)
  | Except.ok Handler.csvgz => Except.ok (fileIOCSVgzRead fs path filter)

/-- `FileIO.write` (core lines 480-483): resolve the handler, then delegate;
a resolution failure leaves the filesystem untouched. -/
def fileIOWrite (fs : FS) (path : String) (content : DataFrame) :
    Except PyErr (Option String) × FS :=
  match getFileHandlerCore path with
  | Except.error e => (Except.error e, fs)
  | Except.ok Handler.csv => fileIOCSVWrite fs path content
  | Except.ok Handler.csvgz => fileIOCSVgzWrite fs path content

/-- The three strategies registered by the base draft's `FileIOFactory`. -/
inductive HandlerB
  | csvgz
  | csv
  | numpy
deriving DecidableEq, Repr

/-- `FileIOFactory._FILE_HANDLERS` (base lines 561-562). -/
def baseFileHandlers : List (String × HandlerB) :=
  [(".gz", HandlerB.csvgz), (".csv", HandlerB.csv), (".npy", HandlerB.numpy)]

/-- `FileIOFactory._get_file_handler` (base lines 567-573): same exact-suffix
lookup over the richer registry. -/
def getFileHandlerBase (path : String) : Except PyErr HandlerB :=
  match lookupExt baseFileHandlers (splitextExt path) with
  | none => Except.error PyErr.unsupportedFormat
  | some h => Except.ok h

/-!
The core draft's `File` class (`datastudio/core/file.py`, lines 42-224).
It declares no base class, so attribute lookup sees only what `__init__`
assigns and what the class body defines.
-/

/-- A core-draft `File` object: its path and lock flag. -/
structure CoreFile where
  path : String
  locked : Bool
deriving DecidableEq, Repr

/-- Instance attributes assigned by `File.__init__` (core lines 59-67). -/
def coreFileInstanceAttrs : List String :=
  ["_name", "_path", "_directory", "_locked", "_exists", "_filename", "_fileext", "_io"]

/-- Names defined in the core `File` class body (lines 42-224). -/
def coreFileClassAttrs : List String :=
  ["__init__", "name", "path", "filename", "directory", "file_ext", "exists",
   "is_locked", "lock", "_update_filename_data", "copy", "move", "rename",
   "read", "write"]

/-- Python attribute resolution on a core `File` instance. -/
def coreFileHasAttr (a : String) : Bool :=
  coreFileInstanceAttrs.contains a || coreFileClassAttrs.contains a

/-- `File.move` (core lines 131-153): the guard `self._is_unlocked(...)` is an
attribute lookup that fails (no `_is_unlocked` anywhere in this draft's
class), so the method raises before moving anything.  The guarded branch
models the documented behaviour and is unreachable. -/
def coreFileMove (f : CoreFile) (path : String) : Except PyErr (Option String) :=
  if coreFileHasAttr ("_is_unlocked") then
    if f.locked then Except.ok none else Except.ok (some path)
  else Except.error PyErr.attributeError

/-- `File.rename` (core lines 156-180): same missing guard, same raise. -/
def coreFileRename (f : CoreFile) (name : String) : Except PyErr (Option String) :=
  if coreFileHasAttr ("_is_unlocked") then
    if f.locked then Except.ok none
    else Except.ok (some (dirname f.path ++ "/" ++ name ++ splitextExt f.path))
  else Except.error PyErr.attributeError

/-- `File.write` (core lines 208-224): same missing guard, same raise. -/
def coreFileWrite (_f : CoreFile) (_content : DataFrame) : Except PyErr Unit :=
  if coreFileHasAttr ("_is_unlocked") then Except.ok ()
  else Except.error PyErr.attributeError

/-!
Concrete fixtures used by the claim theorems and witnesses.
-/

/-- A fixed host environment sample. -/
def env0 : Env :=
  { user := "jj", dateString := "2020-2-14_8-0-0", dateFormatted := "Fri Feb 14 2020",
    uuid := "id-1234" }

/-- A small concrete table. -/
def df0 : DataFrame := { cols := ["a", "b"], rows := [["1", "2"], ["3", "4"]] }

/-- A filesystem with one existing directory and no files. -/
def fs0 : FS := { files := [], dirs := ["d"] }

/-- An administrative record value.  `MetadataAdmin.__init__` itself raises
`TypeError` (see `metadataAdminInit`), so no such record is constructible by
the code; this stand-in only supplies the `administrative` key of the
standard composite, whose contents `Metadata.get` never inspects. -/
def adminStub : MetaRec :=
  { category := MetaCategory.admin, entityClass := "DataSet",
    metadata := abstractMetadataInitDict ("sf") }

/-- A descriptive record value; `MetadataDesc.__init__` likewise raises
`TypeError` (see `metadataDescInit`), so this too is only a stand-in for the
`descriptive` composite key. -/
def descStub : MetaRec :=
  { category := MetaCategory.desc, entityClass := "DataSet",
    metadata := abstractMetadataInitDict ("sf") }

/-- A fresh process record for a `DataSet` named `sf` — the one category
whose constructor succeeds. -/
def procStd : MetaRec := metadataProcessInit env0 ("DataSet") ("sf")

/-- A technical record value.  `MetadataTech.__init__` itself raises (see
`metadataTechInit`), so no such record is constructible by the code; this
stand-in only supplies the `technical` key of the standard composite, whose
contents `Metadata.get` never inspects. -/
def techStub : MetaRec :=
  { category := MetaCategory.tech, entityClass := "DataSet",
    metadata := abstractMetadataInitDict ("sf") }

/-- The standard composite holding all four categories, keyed
`administrative`, `descriptive`, `technical`, `process`. -/
def mdStd : Metadata :=
  (((({ store := [] } : Metadata).add adminStub).add descStub).add techStub).add procStd

/-- A process record with one user-added key, for the C6 witness (process
records are the one category the code can actually construct). -/
def procWithOwner : MetaRec :=
  { procStd with metadata := dictSet procStd.metadata ("owner") (MVal.s ("alice")) }

/-- Cells and column names that the CSV model serialises verbatim: nonempty
and free of separator, newline, quote and carriage-return characters (pandas
would quote or rename such fields; the model implements no quoting). -/
def goodCell (s : String) : Prop :=
  s ≠ "" ∧ (',') ∉ s.data ∧ ('\n') ∉ s.data ∧ ('"') ∉ s.data ∧ ('\r') ∉ s.data

instance (s : String) : Decidable (goodCell s) := by
  unfold goodCell
  infer_instance

theorem splitOnChar_ne_nil (c : Char) (l : List Char) : splitOnChar c l ≠ [] := by
  induction l with
  | nil => simp [splitOnChar]
  | cons x xs ih =>
    simp only [splitOnChar]
    cases h : splitOnChar c xs with
    | nil => simp
    | cons h t =>
      by_cases hx : x = c <;> simp [hx]

theorem splitOnChar_no_sep (c : Char) (l : List Char) (h : c ∉ l) :
    splitOnChar c l = [l] := by
  induction l with
  | nil => rfl
  | cons x xs ih =>
    simp only [List.mem_cons, not_or] at h
    simp only [splitOnChar, ih h.2]
    rw [if_neg (fun hx => h.1 hx.symm)]

theorem splitOnChar_append_sep (c : Char) (l r : List Char) (h : c ∉ l) :
    splitOnChar c (l ++ c :: r) = l :: splitOnChar c r := by
  induction l with
  | nil =>
    simp only [List.nil_append, splitOnChar]
    cases hr : splitOnChar c r with
    | nil => exact absurd hr (splitOnChar_ne_nil c r)
    | cons h t => simp
  | cons x xs ih =>
    simp only [List.mem_cons, not_or] at h
    simp only [List.cons_append, splitOnChar, List.append_eq, ih h.2]
    rw [if_neg (fun hx => h.1 hx.symm)]

theorem splitOnChar_joinChar (c : Char) (ls : List (List Char)) (hne : ls ≠ [])
    (hmem : ∀ l ∈ ls, c ∉ l) : splitOnChar c (joinChar c ls) = ls := by
  induction ls with
  | nil => exact absurd rfl hne
  | cons l rest ih =>
    cases rest with
    | nil =>
      simp only [joinChar]
      exact splitOnChar_no_sep c l (hmem l (by simp))
    | cons l' rest' =>
      have hstep : joinChar c (l :: l' :: rest') = l ++ c :: joinChar c (l' :: rest') := rfl
      rw [hstep, splitOnChar_append_sep c l _ (hmem l (by simp))]
      rw [ih (by simp) (fun x hx => hmem x (by simp [hx]))]

theorem joinChar_append_nil (c : Char) (ls : List (List Char)) (hne : ls ≠ []) :
    joinChar c (ls ++ [[]]) = joinChar c ls ++ [c] := by
  induction ls with
  | nil => exact absurd rfl hne
  | cons l rest ih =>
    cases rest with
    | nil => rfl
    | cons l' rest' =>
      have h1 : joinChar c ((l :: l' :: rest') ++ [[]])
          = l ++ c :: joinChar c ((l' :: rest') ++ [[]]) := rfl
      have h2 : joinChar c (l :: l' :: rest') = l ++ c :: joinChar c (l' :: rest') := rfl
      rw [h1, ih (by simp), h2]
      simp

theorem notMem_joinChar (x c : Char) (ls : List (List Char)) (hx : x ≠ c)
    (hmem : ∀ l ∈ ls, x ∉ l) : x ∉ joinChar c ls := by
  induction ls with
  | nil => simp [joinChar]
  | cons l rest ih =>
    cases rest with
    | nil => exact hmem l (by simp)
    | cons l' rest' =>
      have h1 : joinChar c (l :: l' :: rest') = l ++ c :: joinChar c (l' :: rest') := rfl
      rw [h1]
      simp only [List.mem_append, List.mem_cons, not_or]
      exact ⟨hmem l (by simp), hx, ih (fun y hy => hmem y (by simp [hy]))⟩

theorem joinChar_cons_ne_nil (c : Char) (l : List Char) (rest : List (List Char))
    (h : l ≠ []) : joinChar c (l :: rest) ≠ [] := by
  cases rest with
  | nil => simpa [joinChar]
  | cons l' rest' =>
    have h1 : joinChar c (l :: l' :: rest') = l ++ c :: joinChar c (l' :: rest') := rfl
    rw [h1]
    simp

theorem string_mk_data (s : String) : String.mk s.data = s := rfl

theorem map_mk_data (l : List String) : (l.map String.data).map String.mk = l := by
  induction l with
  | nil => rfl
  | cons s t ih => simp [ih]

theorem data_ne_nil (s : String) (h : s ≠ "") : s.data ≠ [] := by
  intro hd
  apply h
  cases s with
  | mk d =>
    have hd' : d = [] := hd
    subst hd'
    rfl

theorem lookupExt_dictSet_self {α : Type} (md : List (String × α)) (k : String) (v : α) :
    lookupExt (dictSet md k v) k = some v := by
  induction md with
  | nil => simp [dictSet, lookupExt]
  | cons kv t ih =>
    by_cases h : kv.1 = k
    · simp [dictSet, h, lookupExt]
    · simp only [dictSet]
      rw [if_neg (by exact fun hh => h (by cases kv; simpa using hh))]
      cases kv with
      | mk k' v' =>
        simp only [lookupExt]
        rw [if_neg (by simpa using h)]
        exact ih

/-- C1: the claim says `Metadata.get` returns the record on a unique
case-insensitive substring match and raises a lookup error on zero or
multiple matches.  The code does neither: after `next(...)` selects the
first match, `len(metadata)` is evaluated on a record object with no
`__len__`, so a unique match (query `admin`) raises `TypeError`; zero
matches (query `zzz`) raise `StopIteration` from `next`; multiple matches
(query `i`, matching three categories) also raise `TypeError`.  `get` can
never return a record at all. -/
theorem c1_metadata_get_always_raises :
    Metadata.get mdStd ("admin") = Except.error PyErr.typeError
    ∧ Metadata.get mdStd ("zzz") = Except.error PyErr.stopIteration
    ∧ Metadata.get mdStd ("i") = Except.error PyErr.typeError
    ∧ ∀ (m : Metadata) (q : String) (r : MetaRec), Metadata.get m q ≠ Except.ok r := by
  refine ⟨by decide, by decide, by decide, ?_⟩
  intro m q r
  unfold Metadata.get
  cases hh : (m.store.filter (fun kv => strIn q kv.1)).head? with
  | none => simp
  | some kv =>
    have hnot : ("__len__") ∉ metaRecClassAttrNames kv.2.category := by
      cases kv.2.category <;> decide
    have hlen : pyLenMetaRec kv.2 = Except.error PyErr.typeError := by
      unfold pyLenMetaRec
      rw [if_neg hnot]
    simp [hlen]

/-- C8: in the core draft, `File.move`, `File.rename` and `File.write` all
guard themselves with `self._is_unlocked(...)`, but neither `File.__init__`
nor the class body (which has no base class) defines `_is_unlocked`, so each
call raises `AttributeError` regardless of the lock state and never returns
a path or `None`. -/
theorem c8_core_file_guarded_methods_raise (f : CoreFile) (arg : String) (content : DataFrame) :
    coreFileMove f arg = Except.error PyErr.attributeError
    ∧ coreFileRename f arg = Except.error PyErr.attributeError
    ∧ coreFileWrite f content = Except.error PyErr.attributeError := by
  have h : coreFileHasAttr ("_is_unlocked") = false := by decide
  refine ⟨?_, ?_, ?_⟩ <;>
    simp [coreFileMove, coreFileRename, coreFileWrite, h]

/-- C9 counterexample: the claim says `MetadataProcess.update()` with the
default `event=None` raises a `TypeError` from concatenating `event`.  In
fact the concatenation reads `self._name` (never assigned) before it reaches
`event`, so the call raises `AttributeError`, not `TypeError`. -/
theorem c9_update_none_raises_attribute_not_type_error :
    metadataProcessUpdate env0 procStd none = Except.error PyErr.attributeError
    ∧ metadataProcessUpdate env0 procStd none ≠ Except.error PyErr.typeError := by
  refine ⟨by decide, by decide⟩

/-- C9 (amended): `MetadataProcess.update` raises `AttributeError` for every
event value, `None` included, because the `msg` concatenation evaluates
`self._name` — assigned by no constructor in the hierarchy — before the
`event` operand and before the `if event:` guard; the `TypeError` that
`'Event : ' + None` would raise is never reached. -/
theorem c9_process_update_always_attribute_error (env : Env) (r : MetaRec)
    (event : Option String) :
    metadataProcessUpdate env r event = Except.error PyErr.attributeError := by
  unfold metadataProcessUpdate
  rw [if_neg]
  decide

/-- C4: the claim says every record category's `update()` increments
`updates` by exactly one per call — twice giving 2 from the initial 0 — with
the identifier unchanged.  No category satisfies it: `MetadataAdmin.__init__`
and `MetadataDesc.__init__` raise `TypeError` (both pass `kwargs`
positionally into the two-slot `AbstractMetadata.__init__`, lines 400 and
471), so no administrative or descriptive record is ever constructed;
`MetadataTech.__init__` raises `AttributeError` (`uname.tech`, line 534);
and the one constructible category, `MetadataProcess`, has an `update` that
raises `AttributeError` on every call — event or no event, on every process
record — and never increments `updates`, which stays 0. -/
theorem c4_update_counter_unsatisfiable :
    metadataAdminInit env0 ("DataSet") ("sf") = Except.error PyErr.typeError
    ∧ metadataDescInit ("DataSet") ("sf") = Except.error PyErr.typeError
    ∧ metadataTechInit ("DataSet") ("sf") = Except.error PyErr.attributeError
    ∧ metaRecUpdate env0 procStd none = Except.error PyErr.attributeError
    ∧ metaRecUpdate env0 procStd (some ("evt")) = Except.error PyErr.attributeError
    ∧ lookupExt procStd.metadata ("updates") = some (MVal.n 0)
    ∧ ∀ (env : Env) (r : MetaRec), r.category = MetaCategory.process →
        ∀ (event : Option String),
          metaRecUpdate env r event = Except.error PyErr.attributeError := by
  refine ⟨by decide, by decide, by decide, by decide, by decide, by decide, ?_⟩
  intro env r hcat event
  unfold metaRecUpdate
  rw [hcat]
  show metadataProcessUpdate env r event = Except.error PyErr.attributeError
  unfold metadataProcessUpdate
  rw [if_neg]
  decide

theorem lookupExt_dictSet_ne {α : Type} (md : List (String × α)) (k q : String) (v : α)
    (h : k ≠ q) : lookupExt (dictSet md k v) q = lookupExt md q := by
  induction md with
  | nil => simp [dictSet, lookupExt, h]
  | cons kv t ih =>
    cases kv with
    | mk k' v' =>
      by_cases hk : k' = k
      · subst hk
        simp only [dictSet, if_pos rfl, lookupExt]
        rw [if_neg h, if_neg h]
      · simp only [dictSet, if_neg hk, lookupExt]
        by_cases hq : k' = q
        · rw [if_pos hq, if_pos hq]
        · rw [if_neg hq, if_neg hq]
          exact ih

/-- C6: `add(key, value)` on a record inserts the key only when absent; an
immediately following `add(key, other_value)` raises `ValueError` before any
mutation, so the record still maps the key to the first value. -/
theorem c6_add_insert_once (r r' : MetaRec) (k : String) (v w : MVal)
    (h : metaRecAdd r k v = Except.ok r') :
    metaRecAdd r' k w = Except.error PyErr.valueError
    ∧ lookupExt r'.metadata k = some v := by
  unfold metaRecAdd at h
  cases hl : lookupExt r.metadata k with
  | some u => rw [hl] at h; cases h
  | none =>
    rw [hl] at h
    have hr : r' = { r with metadata := dictSet r.metadata k v } := by
      cases h; rfl
    have hlook : lookupExt r'.metadata k = some v := by
      rw [hr]
      exact lookupExt_dictSet_self r.metadata k v
    refine ⟨?_, hlook⟩
    unfold metaRecAdd
    rw [hlook]

/-- C6 witness: the theorem applied to a concrete, constructible process
record and key. -/
theorem c6_add_insert_once_witness :
    metaRecAdd procWithOwner ("owner") (MVal.s ("bob")) = Except.error PyErr.valueError
    ∧ lookupExt procWithOwner.metadata ("owner") = some (MVal.s ("alice")) :=
  c6_add_insert_once procStd procWithOwner ("owner") (MVal.s ("alice")) (MVal.s ("bob"))
    (by decide)

/-- C2: a path whose final dotted suffix is not a registry key makes both
dispatchers raise `UnsupportedFormat` immediately — `read` raises instead of
returning the sentinel, and `write` raises with the filesystem untouched
(resolution happens before any strategy and hence before any I/O). -/
theorem c2_unregistered_extension_raises (fs : FS) (path : String)
    (filter : Option (List String)) (content : DataFrame)
    (hcore : lookupExt coreFileHandlers (splitextExt path) = none)
    (hbase : lookupExt baseFileHandlers (splitextExt path) = none) :
    fileIORead fs path filter = Except.error PyErr.unsupportedFormat
    ∧ fileIOWrite fs path content = (Except.error PyErr.unsupportedFormat, fs)
    ∧ getFileHandlerBase path = Except.error PyErr.unsupportedFormat := by
  refine ⟨?_, ?_, ?_⟩ <;>
    simp [fileIORead, fileIOWrite, getFileHandlerCore, getFileHandlerBase, hcore, hbase]

/-- C2 witness: `.xlsx` is registered in neither registry; both read and
write raise without touching the filesystem. -/
theorem c2_unregistered_extension_raises_witness :
    fileIORead fs0 ("a.xlsx") none = Except.error PyErr.unsupportedFormat
    ∧ fileIOWrite fs0 ("a.xlsx") df0 = (Except.error PyErr.unsupportedFormat, fs0)
    ∧ getFileHandlerBase ("a.xlsx") = Except.error PyErr.unsupportedFormat :=
  c2_unregistered_extension_raises fs0 ("a.xlsx") none df0 (by decide) (by decide)

theorem fileIOCSVRead_sentinel_has_diag (fs : FS) (path : String)
    (filter : Option (List String)) :
    (fileIOCSVRead fs path filter).1 = none → (fileIOCSVRead fs path filter).2 ≠ [] := by
  unfold fileIOCSVRead
  cases hf : fsReadFile fs path with
  | none => simp
  | some text =>
    cases hp : pdReadCsv text filter with
    | error e => simp [hp]
    | ok df => simp [hp]

theorem fileIOCSVgzRead_sentinel_has_diag (fs : FS) (path : String)
    (filter : Option (List String)) :
    (fileIOCSVgzRead fs path filter).1 = none → (fileIOCSVgzRead fs path filter).2 ≠ [] := by
  unfold fileIOCSVgzRead
  cases hf : fsReadFile fs path with
  | none => simp
  | some text =>
    cases hp : pdReadCsvGz text filter with
    | error e => simp [hp]
    | ok df => simp [hp]

/-- C3: for a registered extension the dispatcher's read never raises; a
missing file yields the `None` sentinel together with the missing-file
diagnostic, and every other failure that yields the sentinel also carries a
diagnostic (the strategies catch `IOError` and every other `Exception`). -/
theorem c3_read_failures_return_sentinel (fs : FS) (path : String)
    (filter : Option (List String))
    (hreg : (lookupExt coreFileHandlers (splitextExt path)).isSome = true) :
    (∃ res, fileIORead fs path filter = Except.ok res)
    ∧ (fsReadFile fs path = none →
        fileIORead fs path filter = Except.ok (none, [fileMissingMsg path]))
    ∧ (∀ res, fileIORead fs path filter = Except.ok res → res.1 = none → res.2 ≠ []) := by
  rw [Option.isSome_iff_exists] at hreg
  obtain ⟨hdl, hh⟩ := hreg
  cases hdl
  case csvgz =>
    have hread : fileIORead fs path filter = Except.ok (fileIOCSVgzRead fs path filter) := by
      unfold fileIORead getFileHandlerCore
      rw [hh]
    refine ⟨⟨_, hread⟩, ?_, ?_⟩
    · intro hm
      rw [hread]
      simp [fileIOCSVgzRead, hm]
    · intro res hres hnone
      rw [hread] at hres
      cases hres
      exact fileIOCSVgzRead_sentinel_has_diag fs path filter hnone
  case csv =>
    have hread : fileIORead fs path filter = Except.ok (fileIOCSVRead fs path filter) := by
      unfold fileIORead getFileHandlerCore
      rw [hh]
    refine ⟨⟨_, hread⟩, ?_, ?_⟩
    · intro hm
      rw [hread]
      simp [fileIOCSVRead, hm]
    · intro res hres hnone
      rw [hread] at hres
      cases hres
      exact fileIOCSVRead_sentinel_has_diag fs path filter hnone

/-- C3 witness: reading `./missing.csv` on an empty filesystem returns the
sentinel with its diagnostic and does not raise. -/
theorem c3_read_failures_return_sentinel_witness :
    (∃ res, fileIORead fs0 ("./missing.csv") none = Except.ok res)
    ∧ (fsReadFile fs0 ("./missing.csv") = none →
        fileIORead fs0 ("./missing.csv") none
          = Except.ok (none, [fileMissingMsg ("./missing.csv")]))
    ∧ (∀ res, fileIORead fs0 ("./missing.csv") none = Except.ok res →
        res.1 = none → res.2 ≠ []) :=
  c3_read_failures_return_sentinel fs0 ("./missing.csv") none (by decide)

/-- C7 counterexample: the claim says extension resolution lower-cases the
suffix, so `data.CSV` dispatches like `data.csv`.  It does not: on the same
(empty) filesystem, `data.CSV` raises `UnsupportedFormat` while `data.csv`
dispatches to the CSV strategy and returns the missing-file sentinel. -/
theorem c7_uppercase_extension_not_lowercased :
    fileIORead fs0 ("data.CSV") none = Except.error PyErr.unsupportedFormat
    ∧ fileIORead fs0 ("data.csv") none
      = Except.ok (none, [fileMissingMsg ("data.csv")]) := by
  refine ⟨by decide, by decide⟩

/-- C7 (amended): resolution compares the path's final dotted suffix, as-is
and case-sensitively, against the registry keys; since every key is
lower-case, any upper- or mixed-case variant of a registered extension is
unregistered and raises `UnsupportedFormat` in both drafts rather than
dispatching to the lower-case form's strategy. -/
theorem c7_extension_resolution_case_sensitive (fs : FS) (path : String)
    (filter : Option (List String))
    (_hlower : strToLower (splitextExt path) ∈ [".gz", ".csv", ".npy"])
    (hmixed : splitextExt path ≠ strToLower (splitextExt path)) :
    fileIORead fs path filter = Except.error PyErr.unsupportedFormat
    ∧ getFileHandlerBase path = Except.error PyErr.unsupportedFormat := by
  have hgz : splitextExt path ≠ ".gz" := by
    intro hh
    rw [hh] at hmixed
    exact hmixed (by decide)
  have hcsv : splitextExt path ≠ ".csv" := by
    intro hh
    rw [hh] at hmixed
    exact hmixed (by decide)
  have hnpy : splitextExt path ≠ ".npy" := by
    intro hh
    rw [hh] at hmixed
    exact hmixed (by decide)
  have hc : lookupExt coreFileHandlers (splitextExt path) = none := by
    simp only [coreFileHandlers, lookupExt]
    rw [if_neg (fun hh => hgz hh.symm), if_neg (fun hh => hcsv hh.symm)]
  have hb : lookupExt baseFileHandlers (splitextExt path) = none := by
    simp only [baseFileHandlers, lookupExt]
    rw [if_neg (fun hh => hgz hh.symm), if_neg (fun hh => hcsv hh.symm),
      if_neg (fun hh => hnpy hh.symm)]
  refine ⟨?_, ?_⟩ <;>
    simp [fileIORead, getFileHandlerCore, getFileHandlerBase, hc, hb]

/-- C7 (amended) witness: `data.CSV` raises in both drafts. -/
theorem c7_extension_resolution_case_sensitive_witness :
    fileIORead fs0 ("data.CSV") none = Except.error PyErr.unsupportedFormat
    ∧ getFileHandlerBase ("data.CSV") = Except.error PyErr.unsupportedFormat :=
  c7_extension_resolution_case_sensitive fs0 ("data.CSV") none (by decide) (by decide)

/-- C10: writing through any strategy to a bare filename (no directory
component) runs `_check_dir` outside the `try` block; `os.path.exists('')`
is false, so `os.mkdir('')` is called and its `FileNotFoundError` propagates
to the caller — the write raises and leaves the filesystem untouched
instead of returning the sentinel. -/
theorem c10_bare_filename_write_raises (fs : FS) (path : String) (df : DataFrame)
    (t : TxtContent) (h : dirname path = "") :
    fileIOCSVWrite fs path df = (Except.error PyErr.fileNotFoundError, fs)
    ∧ fileIOCSVgzWrite fs path df = (Except.error PyErr.fileNotFoundError, fs)
    ∧ fileIOTXTWrite fs path t = (Except.error PyErr.fileNotFoundError, fs) := by
  have hex : pathExists fs ("") = false := by
    simp [pathExists]
  have hcd : checkDir fs path = Except.error PyErr.fileNotFoundError := by
    unfold checkDir osMkdir
    rw [h, hex]
    simp
  refine ⟨?_, ?_, ?_⟩ <;>
    simp [fileIOCSVWrite, fileIOCSVgzWrite, fileIOTXTWrite, hcd]

/-- C10 witness: writing `data.csv` (a bare filename) raises through all
three strategies. -/
theorem c10_bare_filename_write_raises_witness :
    fileIOCSVWrite fs0 ("data.csv") df0 = (Except.error PyErr.fileNotFoundError, fs0)
    ∧ fileIOCSVgzWrite fs0 ("data.csv") df0 = (Except.error PyErr.fileNotFoundError, fs0)
    ∧ fileIOTXTWrite fs0 ("data.csv") (TxtContent.str ("x"))
      = (Except.error PyErr.fileNotFoundError, fs0) :=
  c10_bare_filename_write_raises fs0 ("data.csv") df0 (TxtContent.str ("x")) (by decide)

theorem bnot_isEmpty_of_ne_nil {α : Type} (l : List α) (h : l ≠ []) : (!l.isEmpty) = true := by
  cases l with
  | nil => exact absurd rfl h
  | cons a t => rfl

theorem parse_line (cells : List String) (hne : cells ≠ [])
    (hc : ∀ x ∈ cells, goodCell x) :
    (splitOnChar (',') (lineOfCells cells)).map String.mk = cells := by
  unfold lineOfCells
  rw [splitOnChar_joinChar]
  · exact map_mk_data cells
  · simp [hne]
  · intro l hl
    rw [List.mem_map] at hl
    obtain ⟨s, hs, rfl⟩ := hl
    exact (hc s hs).2.1

theorem lineOfCells_ne_nil (cells : List String) (hne : cells ≠ [])
    (hc : ∀ x ∈ cells, goodCell x) : lineOfCells cells ≠ [] := by
  unfold lineOfCells
  cases cells with
  | nil => exact absurd rfl hne
  | cons c t =>
    simp only [List.map_cons]
    exact joinChar_cons_ne_nil (',') c.data (t.map String.data)
      (data_ne_nil c ((hc c (by simp)).1))

theorem newline_notMem_lineOfCells (cells : List String)
    (hc : ∀ x ∈ cells, goodCell x) : ('\n') ∉ lineOfCells cells := by
  unfold lineOfCells
  apply notMem_joinChar
  · decide
  · intro l hl
    rw [List.mem_map] at hl
    obtain ⟨s, hs, rfl⟩ := hl
    exact (hc s hs).2.2.1

theorem parse_lines (cols : List String) (rows : List (List String))
    (hcols : cols ≠ [])
    (hrw : ∀ r ∈ rows, r.length = cols.length ∧ ∀ x ∈ r, goodCell x) :
    rows.map (fun r => (splitOnChar (',') (lineOfCells r)).map String.mk) = rows := by
  induction rows with
  | nil => rfl
  | cons r t ih =>
    have h1 := hrw r (by simp)
    have hne : r ≠ [] := by
      intro hcon
      rw [hcon] at h1
      have h0 : cols.length = 0 := by simpa using h1.1.symm
      exact hcols (List.length_eq_zero.mp h0)
    simp only [List.map_cons]
    rw [parse_line r hne h1.2, ih (fun x hx => hrw x (List.mem_cons_of_mem r hx))]

theorem pdReadCsv_dfToCsv (df : DataFrame) (hcols : df.cols ≠ [])
    (hcw : ∀ c ∈ df.cols, goodCell c)
    (hrw : ∀ r ∈ df.rows, r.length = df.cols.length ∧ ∀ x ∈ r, goodCell x) :
    pdReadCsv (dfToCsv df) none = Except.ok df := by
  have hrowgood : ∀ l ∈ df.rows.map lineOfCells, l ≠ [] := by
    intro l hl
    rw [List.mem_map] at hl
    obtain ⟨r, hr, rfl⟩ := hl
    have h1 := hrw r hr
    have hne : r ≠ [] := by
      intro hcon
      rw [hcon] at h1
      have h0 : df.cols.length = 0 := by simpa using h1.1.symm
      exact hcols (List.length_eq_zero.mp h0)
    exact lineOfCells_ne_nil r hne h1.2
  have hsplit : splitOnChar ('\n') (dfToCsv df).data
      = (lineOfCells df.cols :: df.rows.map lineOfCells) ++ [[]] := by
    have hdata : (dfToCsv df).data
        = joinChar ('\n') ((lineOfCells df.cols :: df.rows.map lineOfCells) ++ [[]]) := by
      rw [joinChar_append_nil _ _ (by simp)]
      rfl
    rw [hdata, splitOnChar_joinChar]
    · simp
    · intro l hl
      rw [List.mem_append] at hl
      cases hl with
      | inl hl =>
        rw [List.mem_cons] at hl
        cases hl with
        | inl hl =>
          subst hl
          exact newline_notMem_lineOfCells df.cols hcw
        | inr hl =>
          rw [List.mem_map] at hl
          obtain ⟨r, hr, rfl⟩ := hl
          exact newline_notMem_lineOfCells r (hrw r hr).2
      | inr hl =>
        rw [List.mem_singleton] at hl
        subst hl
        simp
  have hfilter : (((lineOfCells df.cols :: df.rows.map lineOfCells) ++ [[]]).filter
      (fun l => !l.isEmpty)) = lineOfCells df.cols :: df.rows.map lineOfCells := by
    rw [List.filter_append]
    have h2 : (([([] : List Char)]).filter (fun l => !l.isEmpty)) = [] := rfl
    rw [h2, List.append_nil, List.filter_eq_self]
    intro a ha
    rw [List.mem_cons] at ha
    cases ha with
    | inl ha =>
      subst ha
      exact bnot_isEmpty_of_ne_nil _ (lineOfCells_ne_nil df.cols hcols hcw)
    | inr ha =>
      exact bnot_isEmpty_of_ne_nil _ (hrowgood a ha)
  have hhdr : (splitOnChar (',') (lineOfCells df.cols)).map String.mk = df.cols :=
    parse_line df.cols hcols hcw
  have hrows := parse_lines df.cols df.rows hcols hrw
  simp only [pdReadCsv]
  rw [hsplit, hfilter]
  show Except.ok ({ cols := (splitOnChar (',') (lineOfCells df.cols)).map String.mk,
                    rows := (df.rows.map lineOfCells).map
                      (fun l => (splitOnChar (',') l).map String.mk) } : DataFrame)
      = Except.ok df
  rw [hhdr, List.map_map]
  rw [show ((fun l => (splitOnChar (',') l).map String.mk) ∘ lineOfCells)
      = (fun r => (splitOnChar (',') (lineOfCells r)).map String.mk) from rfl]
  rw [hrows]

/-- C5: writing a table to a `.csv` path with the CSV strategy and reading
the same path back with no column filter returns a table with the same
column set (indeed the same column list) and the same row count.  The
hypotheses delimit the model: the path's suffix is `.csv` and its directory
exists (so `_check_dir`/`_check_file_ext` leave it alone), the table has at
least one column, distinct column names (pandas mangles duplicates on read),
and rectangular rows of nonempty separator-free cells (pandas would quote or
rename anything else). -/
theorem c5_csv_roundtrip (fs : FS) (df : DataFrame) (path : String)
    (hext : splitextExt path = ".csv")
    (hdir : pathExists fs (dirname path) = true)
    (hcols : df.cols ≠ [])
    (_hnodup : df.cols.Nodup)
    (hcw : ∀ c ∈ df.cols, goodCell c)
    (hrw : ∀ r ∈ df.rows, r.length = df.cols.length ∧ ∀ x ∈ r, goodCell x) :
    ∃ df2, (fileIOCSVRead (fileIOCSVWrite fs path df).2 path none).1 = some df2
      ∧ df2.cols.toFinset = df.cols.toFinset
      ∧ df2.rows.length = df.rows.length := by
  have hcd : checkDir fs path = Except.ok fs := by
    unfold checkDir
    rw [hdir]
    simp
  have hcf : checkFileExt path (".csv") = path := by
    unfold checkFileExt
    rw [hext]
    simp
  have hwrite : (fileIOCSVWrite fs path df).2 = fsWriteFile fs path (dfToCsv df) := by
    unfold fileIOCSVWrite
    rw [hcd]
    simp [hcf]
  have hrd : fsReadFile (fileIOCSVWrite fs path df).2 path = some (dfToCsv df) := by
    rw [hwrite]
    simp [fsReadFile, fsWriteFile, lookupExt]
  have hparse := pdReadCsv_dfToCsv df hcols hcw hrw
  refine ⟨df, ?_, rfl, rfl⟩
  unfold fileIOCSVRead
  rw [hrd]
  simp [hparse]

/-- C5 witness: the round trip at a concrete table and path. -/
theorem c5_csv_roundtrip_witness :
    ∃ df2, (fileIOCSVRead (fileIOCSVWrite fs0 ("d/t.csv") df0).2 ("d/t.csv") none).1 = some df2
      ∧ df2.cols.toFinset = df0.cols.toFinset
      ∧ df2.rows.length = df0.rows.length :=
  c5_csv_roundtrip fs0 df0 ("d/t.csv") (by decide) (by decide) (by decide) (by decide)
    (by decide) (by decide)
